import Mathlib

/-!
Verification development for the GPlatesClassStruggle repository.

The repository has two source files:
* `gprm/datasets/GSFML.py` — downloader/cache helpers built on pooch that fetch
  published geoscience datasets and parse them with geopandas/pandas.
* `reconstruction_classes.py` — convenience classes layered on the pygplates
  reconstruction engine.

The embedding below translates the repository's own logic faithfully.  External
libraries (pooch, pandas, geopandas, pygplates) are modelled at their call
boundary: their outputs become function parameters or small model structures,
and doc comments state which external behaviour each model captures.
-/

namespace GSFML

/-- Python exceptions that the embedded code can raise.  `nameError` models the
use of a local variable that was never bound (Python NameError), and
`attributeError` models reading an object attribute that was never assigned. -/
inductive PyError where
  | valueError (msg : String)
  | nameError (name : String)
  | attributeError (name : String)
  deriving DecidableEq, Repr

/-- Model of a geopandas GeoDataFrame: we record the file it was parsed from and
the column names supplied at construction (empty when geopandas inferred them).
The parsing itself is external library behaviour. -/
structure GeoDataFrame where
  source : String
  columns : List String := []
  deriving DecidableEq, Repr

/-- Model of `geopandas.read_file`: parses the named file into a GeoDataFrame. -/
def gpd_read_file (fname : String) : GeoDataFrame := { source := fname }

/-- What a fetch helper hands back on its success path: either the parsed
table (load=True) or the path of the cached file (load=False). -/
inductive FetchResult where
  | table (t : GeoDataFrame)
  | path (p : String)
  deriving DecidableEq, Repr

/-- The arguments each helper passes to `pooch.retrieve`: the fixed download
URL, the expected content hash, and the application cache name given to
`pooch.os_cache` (every helper passes the literal "gprm"). -/
structure RetrieveConfig where
  url : String
  known_hash : Option String
  cache : String
  deriving DecidableEq, Repr

/-- The characters after the last slash: `acc` holds the current segment
reversed and is reset whenever a slash is crossed. -/
def basenameChars : List Char → List Char → List Char
  | acc, [] => acc.reverse
  | acc, c :: rest =>
      if c = '/' then basenameChars [] rest else basenameChars (c :: acc) rest

/-- `os.path.split(f)[1]`: the final path component (after the last slash). -/
def basename (f : String) : String := String.mk (basenameChars [] f.data)

/-- `os.path.split(f)[0]`: everything before the last slash (empty when there
is no slash), modelled for the single-slash separators this code builds. -/
def dirnameOf (f : String) : String :=
  String.mk (f.data.take (f.data.length - (basename f).data.length - 1))

/-- The on-disk location pooch caches a download at: inside the OS cache
directory for the configured application name, keyed by the URL basename. -/
def cacheKey (cfg : RetrieveConfig) : String :=
  "os_cache/" ++ cfg.cache ++ "/" ++ basename cfg.url

/-- Model of `pooch.retrieve` (external): given the sha256 hash of the bytes
actually downloaded, the fetch succeeds with the cached file path only when the
expected hash matches; a mismatch fails the fetch and yields no file. -/
def retrieve (cfg : RetrieveConfig) (downloadedHash : String) : Except String String :=
  match cfg.known_hash with
  | none => .ok (cacheKey cfg)
  | some h =>
      if h = "sha256:" ++ downloadedHash then .ok (cacheKey cfg)
      else .error "hash mismatch"

/-- The retrieve arguments of `MagneticPicks` (GSFML.py lines 19-24). -/
def MagneticPicks_config : RetrieveConfig :=
  { url := "http://www.soest.hawaii.edu/PT/GSFML/ML/DATA/GSFML.global.picks.gmt"
  , known_hash := some "sha256:0895b76597f600a6c6184a7bec0edc0df5ca9234255f3f7bac0fe944317caf65"
  , cache := "gprm" }

/-- The retrieve arguments of `SeafloorFabric` (GSFML.py lines 56-62). -/
def SeafloorFabric_config : RetrieveConfig :=
  { url := "http://www.soest.hawaii.edu/PT/GSFML/SF/DATA/GSFML_SF.tbz"
  , known_hash := some "sha256:e27a73dc544611685144b4587d17f03bde24438ee4646963f10761f8ec2e6036"
  , cache := "gprm" }

/-- The retrieve arguments of `PacificSeamountAges` (GSFML.py lines 93-98). -/
def PacificSeamountAges_config : RetrieveConfig :=
  { url := "https://www.earthbyte.org/webdav/gmt_mirror/gmt/data/cache/Pacific_Ages.txt"
  , known_hash := some "sha256:8c5e57b478c2c2f5581527c7aea5ef282e976c36c5e00452210885a92e635021"
  , cache := "gprm" }

/-- The retrieve arguments of `SeamountCensus` (GSFML.py lines 113-118). -/
def SeamountCensus_config : RetrieveConfig :=
  { url := "http://www.soest.hawaii.edu/PT/SMTS/kwsmts/KWSMTSv01.txt"
  , known_hash := some "sha256:91c93302c44463a424835aa4051b7b2a1ea04d6675d928ca8405b231ae7cea9a"
  , cache := "gprm" }

/-- The retrieve arguments of `LargeIgneousProvinces` (GSFML.py lines 133-139). -/
def LargeIgneousProvinces_config : RetrieveConfig :=
  { url := "https://www.earthbyte.org/webdav/ftp/earthbyte/GPlates/SampleData_GPlates2.2/Individual/FeatureCollections/LargeIgneousProvinces_VolcanicProvinces.zip"
  , known_hash := some "sha256:8f86ab86a12761f5534beaaeaddbed5b4e3e6d3d9b52b0c87ee9b15af2a797cd"
  , cache := "gprm" }

/-- All five dataset fetch helpers, with their retrieve arguments. -/
def fetchConfigs : List RetrieveConfig :=
  [MagneticPicks_config, SeafloorFabric_config, PacificSeamountAges_config,
   SeamountCensus_config, LargeIgneousProvinces_config]

/-- A lowercase hexadecimal digit. -/
def isHexChar (c : Char) : Bool := c.isDigit || ('a' ≤ c && c ≤ 'f')

/-- Checks that a pooch known_hash string is a sha256 specification:
the literal marker followed by 64 hexadecimal digits. -/
def isSha256Spec (h : String) : Bool :=
  decide (h.data.take 7 = "sha256:".data) &&
    (h.data.drop 7).length == 64 && (h.data.drop 7).all isHexChar

/-- The FABRIC_TYPE dictionary of `SeafloorFabric` (GSFML.py lines 64-76). -/
def FABRIC_TYPE : List (String × String) :=
  [ ("FZ", "GSFML_SF_FZ_KM.gmt")
  , ("FZLC", "GSFML_SF_FZLC_KM.gmt")
  , ("UNCV", "GSFML_SF_UNCV_KM.gmt")
  , ("DZ", "GSFML_SF_DZ_KM.gmt")
  , ("PR", "GSFML_SF_PR_KM.gmt")
  , ("VANOM", "GSFML_SF_VANOM_KM.gmt")
  , ("ER", "GSFML_SF_ER_KM.gmt")
  , ("FZ_JW", "GSFML_SF_FZ_JW.gmt")
  , ("FZ_RM", "GSFML_SF_FZ_RM.gmt")
  , ("FZ_MC", "GSFML_SF_FZ_MC.gmt") ]

/-- The keys of FABRIC_TYPE: the ten defined feature type codes. -/
def fabricCodes : List String := FABRIC_TYPE.map Prod.fst

/-- The member loop of `SeafloorFabric` (GSFML.py lines 80-85): the first
archive member whose basename equals the target file is loaded (load=True) or
returned as a path (load=False); falling off the loop returns Python None. -/
def seafloorScan (target : String) (load : Bool) : List String → Option FetchResult
  | [] => none
  | fname :: rest =>
      if basename fname = target then
        some (if load then .table (gpd_read_file fname) else .path fname)
      else seafloorScan target load rest

/-- `SeafloorFabric(feature_type, load)` after the archive retrieve step:
`fnames` is the extracted member list produced by pooch Untar.  An undefined
feature type raises ValueError; otherwise the member loop runs, and a function
that falls off its end returns Python None (`Option.none`). -/
def SeafloorFabric (feature_type : String) (load : Bool) (fnames : List String) :
    Except PyError (Option FetchResult) :=
  match FABRIC_TYPE.lookup feature_type with
  | none => .error (.valueError ("Unknown feature type " ++ feature_type))
  | some target => .ok (seafloorScan target load fnames)

theorem lookup_isSome_iff_mem_keys (k : String) (l : List (String × String)) :
    (l.lookup k).isSome = true ↔ k ∈ l.map Prod.fst := by
  induction l with
  | nil => simp [List.lookup]
  | cons p rest ih =>
    obtain ⟨a, b⟩ := p
    simp only [List.lookup, List.map_cons, List.mem_cons]
    cases h : (k == a)
    · have hne : k ≠ a := fun he => by simp [he] at h
      simp [h, hne, ih]
    · have he : k = a := beq_iff_eq.mp h
      simp [h, he]

theorem lookup_isSome_iff_mem_codes (feature_type : String) :
    (FABRIC_TYPE.lookup feature_type).isSome = true ↔ feature_type ∈ fabricCodes :=
  lookup_isSome_iff_mem_keys feature_type FABRIC_TYPE

/-- C1: for every string feature_type outside the ten defined codes,
SeafloorFabric raises ValueError; for every defined code it does not raise
(whatever the archive members and the load flag). -/
theorem seafloorFabric_feature_type_validation
    (feature_type : String) (load : Bool) (fnames : List String) :
    (feature_type ∉ fabricCodes →
      SeafloorFabric feature_type load fnames =
        .error (.valueError ("Unknown feature type " ++ feature_type)))
    ∧ (feature_type ∈ fabricCodes →
      ∃ r, SeafloorFabric feature_type load fnames = .ok r) := by
  constructor
  · intro hnot
    have : FABRIC_TYPE.lookup feature_type = none := by
      by_contra hcon
      exact hnot ((lookup_isSome_iff_mem_codes feature_type).mp
        (Option.ne_none_iff_isSome.mp hcon))
    simp [SeafloorFabric, this]
  · intro hmem
    have := (lookup_isSome_iff_mem_codes feature_type).mpr hmem
    rcases Option.isSome_iff_exists.mp this with ⟨target, htarget⟩
    exact ⟨seafloorScan target load fnames, by simp [SeafloorFabric, htarget]⟩

/-- Closed instance of C1: the undefined code XX raises, the defined code FZ
does not. -/
theorem seafloorFabric_feature_type_validation_witness :
    ("XX" ∉ fabricCodes ∧
      SeafloorFabric "XX" true [] =
        .error (.valueError "Unknown feature type XX"))
    ∧ ("FZ" ∈ fabricCodes ∧
      ∃ r, SeafloorFabric "FZ" true [] = .ok r) :=
  ⟨⟨by decide,
    (seafloorFabric_feature_type_validation "XX" true []).1 (by decide)⟩,
   ⟨by decide,
    (seafloorFabric_feature_type_validation "FZ" true []).2 (by decide)⟩⟩

/-- The License.txt loop of `LargeIgneousProvinces` (GSFML.py lines 141-143):
`dirname` is rebound on every member whose basename is License.txt, so after
the loop it holds the directory of the last such member, and stays unbound
(Python NameError on use) when there is none. -/
def licenseDirname (fnames : List String) : Option String :=
  ((fnames.filter (fun f => basename f = "License.txt")).getLast?).map dirnameOf

/-- The shapefile path built for the Whittaker catalogue (GSFML.py line 146). -/
def whittakerShp (dirname : String) : String :=
  dirname ++ "/LargeIgneousProvinces_VolcanicProvinces/Whittaker_etal_2015_LargeIgneousProvinces/SHP/Whittaker_etal_2015_LIPs.shp"

/-- The shapefile path built for the Johansson catalogue (GSFML.py line 148). -/
def johanssonShp (dirname : String) : String :=
  dirname ++ "/LargeIgneousProvinces_VolcanicProvinces/Johansson_etal_2018_VolcanicProvinces/SHP/Johansson_etal_2018_VolcanicProvinces_v2.shp"

/-- `LargeIgneousProvinces(catalogue, load)` after the archive retrieve step
(GSFML.py lines 128-153): `fnames` is the extracted member list produced by
pooch Unzip.  The source has no else branch on the catalogue: for a catalogue
other than Whittaker or Johansson, the local variable fname keeps the value
left by the `for fname in fnames` loop — the last member of the archive — and
the function proceeds with it (a NameError can only occur when the member list
is empty, or when no License.txt member fixed dirname). -/
def LargeIgneousProvinces (catalogue : String) (load : Bool) (fnames : List String) :
    Except PyError FetchResult :=
  let fname0 : Option String := fnames.getLast?
  let dirname : Option String := licenseDirname fnames
  let fname1 : Except PyError String :=
    if catalogue = "Whittaker" then
      match dirname with
      | none => .error (.nameError "dirname")
      | some d => .ok (whittakerShp d)
    else if catalogue = "Johansson" then
      match dirname with
      | none => .error (.nameError "dirname")
      | some d => .ok (johanssonShp d)
    else
      match fname0 with
      | none => .error (.nameError "fname")
      | some f => .ok f
  match fname1 with
  | .error e => .error e
  | .ok f => .ok (if load then .table (gpd_read_file f) else .path f)

/-- C2 counterexample: with a concrete extracted archive and the unknown
catalogue X, LargeIgneousProvinces does not raise a ValueError — it returns
normally, handing back the path of the last archive member. -/
theorem largeIgneousProvinces_unknown_catalogue_counterexample :
    LargeIgneousProvinces "X" false
        ["cachedir/License.txt", "cachedir/other.shp"] =
      .ok (.path "cachedir/other.shp") := by
  rfl

/-- C2 amended: LargeIgneousProvinces never validates the catalogue argument,
so an unknown catalogue never raises a ValueError; instead, whenever the
extracted member list is nonempty, the function falls through using the last
member left in the loop variable fname, returning its parse (load=True) or its
path (load=False). -/
theorem largeIgneousProvinces_unknown_catalogue_falls_through
    (catalogue : String) (load : Bool) (fnames : List String)
    (h1 : catalogue ≠ "Whittaker") (h2 : catalogue ≠ "Johansson") :
    (∀ msg, LargeIgneousProvinces catalogue load fnames ≠
              .error (.valueError msg))
    ∧ (∀ f, fnames.getLast? = some f →
        LargeIgneousProvinces catalogue load fnames =
          .ok (if load then .table (gpd_read_file f) else .path f)) := by
  constructor
  · intro msg
    simp only [LargeIgneousProvinces, h1, h2, if_false]
    cases hlast : fnames.getLast? <;> simp
  · intro f hf
    simp [LargeIgneousProvinces, h1, h2, hf]

/-- Closed instance of the amended C2: at the unknown catalogue X with a
two-member archive, no ValueError arises and the last member is used. -/
theorem largeIgneousProvinces_unknown_catalogue_falls_through_witness :
    (∀ msg, LargeIgneousProvinces "X" true
        ["cachedir/License.txt", "cachedir/other.shp"] ≠
          .error (.valueError msg))
    ∧ LargeIgneousProvinces "X" true
        ["cachedir/License.txt", "cachedir/other.shp"] =
        .ok (.table (gpd_read_file "cachedir/other.shp")) :=
  ⟨(largeIgneousProvinces_unknown_catalogue_falls_through "X" true
      ["cachedir/License.txt", "cachedir/other.shp"]
      (by decide) (by decide)).1,
   (largeIgneousProvinces_unknown_catalogue_falls_through "X" true
      ["cachedir/License.txt", "cachedir/other.shp"]
      (by decide) (by decide)).2 "cachedir/other.shp" (by rfl)⟩

theorem seafloorScan_none_of_no_match (target : String) (load : Bool)
    (fnames : List String) (h : ∀ f ∈ fnames, basename f ≠ target) :
    seafloorScan target load fnames = none := by
  induction fnames with
  | nil => rfl
  | cons f rest ih =>
    have hf : basename f ≠ target := h f (List.mem_cons_self f rest)
    simp only [seafloorScan, hf, if_false]
    exact ih (fun g hg => h g (List.mem_cons_of_mem f hg))

/-- C4: for a defined feature type whose mapped file matches the basename of
no archive member, SeafloorFabric returns Python None (no result) without
raising. -/
theorem seafloorFabric_no_member_yields_none
    (feature_type target : String) (load : Bool) (fnames : List String)
    (hcode : FABRIC_TYPE.lookup feature_type = some target)
    (hmiss : ∀ f ∈ fnames, basename f ≠ target) :
    SeafloorFabric feature_type load fnames = .ok none := by
  simp [SeafloorFabric, hcode, seafloorScan_none_of_no_match target load fnames hmiss]

/-- Closed instance of C4: the defined code FZ against an archive without
GSFML_SF_FZ_KM.gmt returns None without raising. -/
theorem seafloorFabric_no_member_yields_none_witness :
    FABRIC_TYPE.lookup "FZ" = some "GSFML_SF_FZ_KM.gmt"
    ∧ SeafloorFabric "FZ" true ["cachedir/GSFML_SF_DZ_KM.gmt"] = .ok none :=
  ⟨by decide,
   seafloorFabric_no_member_yields_none "FZ" "GSFML_SF_FZ_KM.gmt" true
     ["cachedir/GSFML_SF_DZ_KM.gmt"] (by decide) (by decide)⟩

/-- `MagneticPicks(load)` after the retrieve step: `fname` is the cached file
path returned by pooch (GSFML.py lines 26-29). -/
def MagneticPicks (load : Bool) (fname : String) : FetchResult :=
  if load then .table (gpd_read_file fname) else .path fname

/-- The column names `PacificSeamountAges` passes to pandas read_csv. -/
def PacificSeamountAges_columns : List String :=
  ["Long", "Lat", "Average_Age_Ma", "Average_Age_Error_Ma", "Tag",
   "SeamountName", "SeamountChain"]

/-- The column names `SeamountCensus` passes to pandas read_csv. -/
def SeamountCensus_columns : List String :=
  ["Long", "Lat", "Azimuth", "Major", "Minor", "Height", "FAA", "VGG",
   "Depth", "CrustAge", "ID"]

/-- Model of reading a whitespace-delimited text file with pandas under the
given column names and wrapping it as a GeoDataFrame with point geometry built
from its Long and Lat columns (external pandas/geopandas behaviour). -/
def pd_csv_to_gdf (fname : String) (names : List String) : GeoDataFrame :=
  { source := fname, columns := names }

/-- `PacificSeamountAges(load)` after the retrieve step (GSFML.py 100-105). -/
def PacificSeamountAges (load : Bool) (fname : String) : FetchResult :=
  if load then .table (pd_csv_to_gdf fname PacificSeamountAges_columns)
  else .path fname

/-- `SeamountCensus(load)` after the retrieve step (GSFML.py 120-125). -/
def SeamountCensus (load : Bool) (fname : String) : FetchResult :=
  if load then .table (pd_csv_to_gdf fname SeamountCensus_columns)
  else .path fname

/-- C5: every fetch helper passes a well-formed sha256 known_hash to pooch
retrieve, and retrieve fails (yields no file) whenever the hash of the
downloaded bytes does not match the expected hash. -/
theorem fetch_helpers_supply_sha256 :
    (∀ cfg ∈ fetchConfigs, ∃ h, cfg.known_hash = some h ∧ isSha256Spec h = true)
    ∧ (∀ cfg ∈ fetchConfigs, ∀ downloadedHash h, cfg.known_hash = some h →
        h ≠ "sha256:" ++ downloadedHash →
          retrieve cfg downloadedHash = .error "hash mismatch") := by
  constructor
  · intro cfg hcfg
    fin_cases hcfg <;>
      exact ⟨_, rfl, by decide⟩
  · intro cfg _ downloadedHash h hsome hne
    simp [retrieve, hsome, hne]

/-- Closed instance of C5: MagneticPicks is one of the helpers, its hash is a
sha256 specification, and an empty-hash download fails its fetch. -/
theorem fetch_helpers_supply_sha256_witness :
    (MagneticPicks_config ∈ fetchConfigs
      ∧ ∃ h, MagneticPicks_config.known_hash = some h ∧ isSha256Spec h = true)
    ∧ retrieve MagneticPicks_config "" = .error "hash mismatch" :=
  ⟨⟨by decide, fetch_helpers_supply_sha256.1 MagneticPicks_config (by decide)⟩,
   fetch_helpers_supply_sha256.2 MagneticPicks_config (by decide) ""
     "sha256:0895b76597f600a6c6184a7bec0edc0df5ca9234255f3f7bac0fe944317caf65"
     rfl (by decide)⟩

/-- C6: the five fetch helpers each use one fixed URL and one fixed expected
hash, all store into the same gprm OS cache directory, and the retrieve model
either yields the cache entry keyed by the URL (under the gprm cache) or fails
on a checksum mismatch. -/
theorem fetch_helpers_fixed_url_hash_cache :
    fetchConfigs.map RetrieveConfig.url =
      [ "http://www.soest.hawaii.edu/PT/GSFML/ML/DATA/GSFML.global.picks.gmt"
      , "http://www.soest.hawaii.edu/PT/GSFML/SF/DATA/GSFML_SF.tbz"
      , "https://www.earthbyte.org/webdav/gmt_mirror/gmt/data/cache/Pacific_Ages.txt"
      , "http://www.soest.hawaii.edu/PT/SMTS/kwsmts/KWSMTSv01.txt"
      , "https://www.earthbyte.org/webdav/ftp/earthbyte/GPlates/SampleData_GPlates2.2/Individual/FeatureCollections/LargeIgneousProvinces_VolcanicProvinces.zip" ]
    ∧ fetchConfigs.map RetrieveConfig.known_hash =
      [ some "sha256:0895b76597f600a6c6184a7bec0edc0df5ca9234255f3f7bac0fe944317caf65"
      , some "sha256:e27a73dc544611685144b4587d17f03bde24438ee4646963f10761f8ec2e6036"
      , some "sha256:8c5e57b478c2c2f5581527c7aea5ef282e976c36c5e00452210885a92e635021"
      , some "sha256:91c93302c44463a424835aa4051b7b2a1ea04d6675d928ca8405b231ae7cea9a"
      , some "sha256:8f86ab86a12761f5534beaaeaddbed5b4e3e6d3d9b52b0c87ee9b15af2a797cd" ]
    ∧ fetchConfigs.all (fun cfg => cfg.cache == "gprm") = true
    ∧ (∀ cfg downloadedHash, retrieve cfg downloadedHash = .ok (cacheKey cfg)
        ∨ retrieve cfg downloadedHash = .error "hash mismatch") := by
  refine ⟨rfl, rfl, by decide, ?_⟩
  intro cfg downloadedHash
  simp only [retrieve]
  cases cfg.known_hash with
  | none => exact Or.inl rfl
  | some h =>
      by_cases he : h = "sha256:" ++ downloadedHash
      · exact Or.inl (by simp [he])
      · exact Or.inr (by simp [he])

theorem seafloorScan_hit (target : String) (fnames : List String)
    (hhit : ∃ g ∈ fnames, basename g = target) :
    ∃ g, seafloorScan target true fnames = some (.table (gpd_read_file g))
       ∧ seafloorScan target false fnames = some (.path g) := by
  induction fnames with
  | nil => rcases hhit with ⟨g, hg, _⟩; cases hg
  | cons f rest ih =>
    by_cases hf : basename f = target
    · exact ⟨f, by simp [seafloorScan, hf], by simp [seafloorScan, hf]⟩
    · rcases hhit with ⟨g, hg, hbg⟩
      rcases List.mem_cons.mp hg with rfl | hg2
      · exact absurd hbg hf
      · rcases ih ⟨g, hg2, hbg⟩ with ⟨g2, h1, h2⟩
        exact ⟨g2, by simp [seafloorScan, hf, h1], by simp [seafloorScan, hf, h2]⟩

/-- C7: with load=True every fetch helper returns a parsed GeoDataFrame, not a
path; with load=False it returns the cached file path instead (for
SeafloorFabric, on an archive holding the requested member; for
LargeIgneousProvinces, on an archive whose License.txt member fixed the
directory). -/
theorem fetch_helpers_load_flag
    (fname feature_type target d : String) (fnames fnames2 : List String)
    (hcode : FABRIC_TYPE.lookup feature_type = some target)
    (hhit : ∃ g ∈ fnames, basename g = target)
    (hdir : licenseDirname fnames2 = some d) :
    (MagneticPicks true fname = .table (gpd_read_file fname)
      ∧ MagneticPicks false fname = .path fname)
    ∧ (PacificSeamountAges true fname =
          .table (pd_csv_to_gdf fname PacificSeamountAges_columns)
      ∧ PacificSeamountAges false fname = .path fname)
    ∧ (SeamountCensus true fname =
          .table (pd_csv_to_gdf fname SeamountCensus_columns)
      ∧ SeamountCensus false fname = .path fname)
    ∧ (∃ g, SeafloorFabric feature_type true fnames =
              .ok (some (.table (gpd_read_file g)))
          ∧ SeafloorFabric feature_type false fnames = .ok (some (.path g)))
    ∧ (LargeIgneousProvinces "Whittaker" true fnames2 =
          .ok (.table (gpd_read_file (whittakerShp d)))
      ∧ LargeIgneousProvinces "Whittaker" false fnames2 =
          .ok (.path (whittakerShp d))
      ∧ LargeIgneousProvinces "Johansson" true fnames2 =
          .ok (.table (gpd_read_file (johanssonShp d)))
      ∧ LargeIgneousProvinces "Johansson" false fnames2 =
          .ok (.path (johanssonShp d))) := by
  refine ⟨⟨rfl, rfl⟩, ⟨rfl, rfl⟩, ⟨rfl, rfl⟩, ?_, ?_⟩
  · rcases seafloorScan_hit target fnames hhit with ⟨g, h1, h2⟩
    exact ⟨g, by simp [SeafloorFabric, hcode, h1], by simp [SeafloorFabric, hcode, h2]⟩
  · refine ⟨?_, ?_, ?_, ?_⟩ <;> simp [LargeIgneousProvinces, hdir]

/-- Closed instance of C7 at a one-member fabric archive and a License.txt
carrying zip listing. -/
theorem fetch_helpers_load_flag_witness :
    FABRIC_TYPE.lookup "FZ" = some "GSFML_SF_FZ_KM.gmt"
    ∧ (∃ g ∈ ["c/GSFML_SF_FZ_KM.gmt"], basename g = "GSFML_SF_FZ_KM.gmt")
    ∧ licenseDirname ["c/License.txt"] = some "c"
    ∧ MagneticPicks true "c/p.gmt" = .table (gpd_read_file "c/p.gmt")
    ∧ (∃ g, SeafloorFabric "FZ" true ["c/GSFML_SF_FZ_KM.gmt"] =
              .ok (some (.table (gpd_read_file g)))
          ∧ SeafloorFabric "FZ" false ["c/GSFML_SF_FZ_KM.gmt"] =
              .ok (some (.path g)))
    ∧ LargeIgneousProvinces "Whittaker" false ["c/License.txt"] =
        .ok (.path (whittakerShp "c")) :=
  ⟨by decide,
   ⟨"c/GSFML_SF_FZ_KM.gmt", by decide, by decide⟩,
   by decide,
   (fetch_helpers_load_flag "c/p.gmt" "FZ" "GSFML_SF_FZ_KM.gmt" "c"
      ["c/GSFML_SF_FZ_KM.gmt"] ["c/License.txt"] (by decide)
      ⟨"c/GSFML_SF_FZ_KM.gmt", by decide, by decide⟩ (by decide)).1.1,
   (fetch_helpers_load_flag "c/p.gmt" "FZ" "GSFML_SF_FZ_KM.gmt" "c"
      ["c/GSFML_SF_FZ_KM.gmt"] ["c/License.txt"] (by decide)
      ⟨"c/GSFML_SF_FZ_KM.gmt", by decide, by decide⟩ (by decide)).2.2.2.1,
   ((fetch_helpers_load_flag "c/p.gmt" "FZ" "GSFML_SF_FZ_KM.gmt" "c"
      ["c/GSFML_SF_FZ_KM.gmt"] ["c/License.txt"] (by decide)
      ⟨"c/GSFML_SF_FZ_KM.gmt", by decide, by decide⟩ (by decide)).2.2.2.2.2.1)⟩

end GSFML

namespace ReconstructionClasses

/-- Model of a pandas DataFrame: the ordered column names, and the rows, each
row a list of cell values aligned with the columns.  Cell values are rationals
(the shallow embedding of the Python floats and plate id integers flowing
through these tables). -/
structure DataFrame where
  columns : List String
  rows : List (List ℚ)
  deriving DecidableEq

/-- The ReconstructionModel class: a name and three file-name lists grown by
the add methods (reconstruction_classes.py lines 11-26). -/
structure ReconstructionModel where
  name : String
  rotation_model : List String
  static_polygons : List String
  dynamic_polygons : List String
  deriving DecidableEq

/-- `ReconstructionModel.__init__`. -/
def ReconstructionModel.init (name : String) : ReconstructionModel :=
  { name := name, rotation_model := [], static_polygons := [], dynamic_polygons := [] }

/-- `ReconstructionModel.add_rotation_model`. -/
def ReconstructionModel.add_rotation_model (m : ReconstructionModel)
    (rotation_file : String) : ReconstructionModel :=
  { m with rotation_model := m.rotation_model ++ [rotation_file] }

/-- `ReconstructionModel.add_static_polygons`. -/
def ReconstructionModel.add_static_polygons (m : ReconstructionModel)
    (static_polygons_file : String) : ReconstructionModel :=
  { m with static_polygons := m.static_polygons ++ [static_polygons_file] }

/-- `ReconstructionModel.add_dynamic_polygons`. -/
def ReconstructionModel.add_dynamic_polygons (m : ReconstructionModel)
    (dynamic_polygons_file : String) : ReconstructionModel :=
  { m with dynamic_polygons := m.dynamic_polygons ++ [dynamic_polygons_file] }

/-- The column template of `subduction_convergence`
(reconstruction_classes.py lines 63-65). -/
def DataFrameTemplate : List String :=
  ["lon", "lat", "conv_rate", "conv_obliq", "migr_rate", "migr_obliq",
   "arc_length", "arc_azimuth", "subducting_plate", "overriding_plate", "time"]

/-- The SubductionConvergence class: wraps the built DataFrame. -/
structure SubductionConvergence where
  df : DataFrame
  deriving DecidableEq

/-- `ReconstructionModel.subduction_convergence` after the external
`ptt.subduction_convergence` call: `result` is the list of sample tuples the
engine returns, each a 10-tuple (lon, lat, conv_rate, conv_obliq, migr_rate,
migr_obliq, arc_length, arc_azimuth, subducting plate id, overriding plate
id).  The method appends the requested reconstruction_time to every tuple and
builds the DataFrame under the fixed column template
(reconstruction_classes.py lines 57-70). -/
def subduction_convergence (result : List (List ℚ)) (reconstruction_time : ℚ) :
    SubductionConvergence :=
  let subduction_data := result.map (fun data => data ++ [reconstruction_time])
  ⟨⟨DataFrameTemplate, subduction_data⟩⟩

/-- C3: the table built by subduction_convergence has exactly the eleven
documented columns in order, the column at index 10 is time, and (for the
engine's 10-tuple samples) every row carries the requested
reconstruction_time in that column. -/
theorem subduction_convergence_schema_and_time
    (result : List (List ℚ)) (reconstruction_time : ℚ)
    (hlen : ∀ r ∈ result, r.length = 10) :
    (subduction_convergence result reconstruction_time).df.columns = DataFrameTemplate
    ∧ DataFrameTemplate.get? 10 = some "time"
    ∧ ∀ row ∈ (subduction_convergence result reconstruction_time).df.rows,
        row.get? 10 = some reconstruction_time := by
  refine ⟨rfl, rfl, ?_⟩
  intro row hrow
  simp only [subduction_convergence, List.mem_map] at hrow
  rcases hrow with ⟨data, hdata, rfl⟩
  have h10 : data.length = 10 := hlen data hdata
  rw [List.get?_append_right (by omega)]
  simp [h10]

/-- Closed instance of C3 on a single engine sample. -/
theorem subduction_convergence_schema_and_time_witness :
    (∀ r ∈ [[(0 : ℚ), 1, 2, 3, 4, 5, 6, 7, 8, 9]], r.length = 10)
    ∧ (subduction_convergence [[(0 : ℚ), 1, 2, 3, 4, 5, 6, 7, 8, 9]] 17).df.columns
        = DataFrameTemplate
    ∧ ∀ row ∈ (subduction_convergence [[(0 : ℚ), 1, 2, 3, 4, 5, 6, 7, 8, 9]] 17).df.rows,
        row.get? 10 = some 17 :=
  ⟨by decide,
   (subduction_convergence_schema_and_time
      [[(0 : ℚ), 1, 2, 3, 4, 5, 6, 7, 8, 9]] 17 (by decide)).1,
   (subduction_convergence_schema_and_time
      [[(0 : ℚ), 1, 2, 3, 4, 5, 6, 7, 8, 9]] 17 (by decide)).2.2⟩

/-- A point on the sphere, observed through to_lat_lon (external pygplates
PointOnSphere). -/
structure PointOnSphere where
  lat : ℚ
  lon : ℚ
  deriving DecidableEq

/-- One geometry of a velocity domain feature: its list of points. -/
structure DomainGeometry where
  points : List PointOnSphere
  deriving DecidableEq

/-- A velocity domain feature: its list of geometries. -/
structure DomainFeature where
  geometries : List DomainGeometry
  deriving DecidableEq

/-- A 3-component vector object as returned by pygplates
convert_from_geocentric_to_north_east_down: get_x is the north component and
get_y the east component, and the object carries a get_x attribute. -/
structure EnVec where
  x : ℚ
  y : ℚ
  z : ℚ
  deriving DecidableEq

/-- An entry of the all_velocities_en list in velocity_field: either a vector
object from the engine (which has a get_x attribute), or the plain Python
tuple appended for points inside no plate polygon (which has none, so the
getattr test in the conversion loop fails on it). -/
inductive EnEntry where
  | vecEntry (v : EnVec)
  | tupEntry (a b c : ℚ)
  deriving DecidableEq

/-- The VelocityField class (reconstruction_classes.py lines 186-195). -/
structure VelocityField where
  latitude : List ℚ
  longitude : List ℚ
  velocity_east : List ℚ
  velocity_north : List ℚ
  velocity_magnitude : List ℚ
  velocity_azimuth : List ℚ
  plate_id : List Int
  deriving DecidableEq

/-- The flattening performed by the three nested loops of velocity_field:
every point of every geometry of every domain feature, in order, is appended
to all_domain_points. -/
def domainPoints (velocity_domain_features : List DomainFeature) : List PointOnSphere :=
  velocity_domain_features.bind (fun f => f.geometries.bind DomainGeometry.points)

/-- `PlateSnapshot.velocity_field` (reconstruction_classes.py lines 96-183).
The external engine enters through three parameters: `partition_point` is
pygplates PlatePartitioner.partition_point composed with the plate id of the
partitioning feature (none when the point falls in no resolved polygon);
`engine_en` is the stage-rotation/velocity/north-east-down chain for a point
on a given plate; `engine_magaz` likewise for magnitude-azimuth-inclination.
For a point in no polygon the source appends the tuple (0,0,0) to both
velocity lists and 0 to plate_ids; the conversion loops then turn an entry
without a get_x attribute into east 0.0 and north 0.0, and take components 0
and 1 of the magnitude-azimuth entry. -/
def velocity_field (velocity_domain_features : List DomainFeature)
    (partition_point : PointOnSphere → Option Int)
    (engine_en : PointOnSphere → Int → EnVec)
    (engine_magaz : PointOnSphere → Int → ℚ × ℚ × ℚ) : VelocityField :=
  let all_domain_points := domainPoints velocity_domain_features
  let entries : List (EnEntry × (ℚ × ℚ × ℚ) × Int) :=
    all_domain_points.map (fun p =>
      match partition_point p with
      | some pid => (EnEntry.vecEntry (engine_en p pid), engine_magaz p pid, pid)
      | none => (EnEntry.tupEntry 0 0 0, ((0 : ℚ), (0 : ℚ), (0 : ℚ)), (0 : Int)))
  let vel_east := entries.map (fun e =>
    match e.1 with
    | .vecEntry v => v.y
    | .tupEntry _ _ _ => 0)
  let vel_north := entries.map (fun e =>
    match e.1 with
    | .vecEntry v => v.x
    | .tupEntry _ _ _ => 0)
  let vel_mag := entries.map (fun e => e.2.1.1)
  let vel_azim := entries.map (fun e => e.2.1.2.1)
  let plate_ids := entries.map (fun e => e.2.2)
  let pt_lon := all_domain_points.map PointOnSphere.lon
  let pt_lat := all_domain_points.map PointOnSphere.lat
  { latitude := pt_lat, longitude := pt_lon, velocity_east := vel_east,
    velocity_north := vel_north, velocity_magnitude := vel_mag,
    velocity_azimuth := vel_azim, plate_id := plate_ids }

/-- C8: a domain point inside no resolved plate polygon stays in the output at
its position, with east velocity 0, north velocity 0, magnitude 0, azimuth 0,
and plate id 0. -/
theorem velocity_field_point_outside_all_polygons
    (velocity_domain_features : List DomainFeature)
    (partition_point : PointOnSphere → Option Int)
    (engine_en : PointOnSphere → Int → EnVec)
    (engine_magaz : PointOnSphere → Int → ℚ × ℚ × ℚ)
    (i : ℕ) (p : PointOnSphere)
    (hp : (domainPoints velocity_domain_features).get? i = some p)
    (hnone : partition_point p = none) :
    (velocity_field velocity_domain_features partition_point engine_en engine_magaz).latitude.get? i = some p.lat
    ∧ (velocity_field velocity_domain_features partition_point engine_en engine_magaz).longitude.get? i = some p.lon
    ∧ (velocity_field velocity_domain_features partition_point engine_en engine_magaz).velocity_east.get? i = some 0
    ∧ (velocity_field velocity_domain_features partition_point engine_en engine_magaz).velocity_north.get? i = some 0
    ∧ (velocity_field velocity_domain_features partition_point engine_en engine_magaz).velocity_magnitude.get? i = some 0
    ∧ (velocity_field velocity_domain_features partition_point engine_en engine_magaz).velocity_azimuth.get? i = some 0
    ∧ (velocity_field velocity_domain_features partition_point engine_en engine_magaz).plate_id.get? i = some 0 := by
  have hp2 : (domainPoints velocity_domain_features)[i]? = some p := by
    simpa [List.get?_eq_getElem?] using hp
  refine ⟨?_, ?_, ?_, ?_, ?_, ?_, ?_⟩ <;>
    simp [velocity_field, hp2, hnone]

/-- Closed instance of C8: one feature with one single-point geometry, a
partitioner that places the point in no polygon, and nonzero engine outputs
(which must not leak into the result). -/
theorem velocity_field_point_outside_all_polygons_witness :
    (domainPoints [⟨[⟨[⟨1, 2⟩]⟩]⟩]).get? 0 = some ⟨1, 2⟩
    ∧ ((fun _ => none) : PointOnSphere → Option Int) ⟨1, 2⟩ = none
    ∧ (velocity_field [⟨[⟨[⟨1, 2⟩]⟩]⟩] (fun _ => none)
        (fun _ _ => ⟨3, 4, 5⟩) (fun _ _ => (6, 7, 8))).velocity_east.get? 0 = some 0
    ∧ (velocity_field [⟨[⟨[⟨1, 2⟩]⟩]⟩] (fun _ => none)
        (fun _ _ => ⟨3, 4, 5⟩) (fun _ _ => (6, 7, 8))).plate_id.get? 0 = some 0
    ∧ (velocity_field [⟨[⟨[⟨1, 2⟩]⟩]⟩] (fun _ => none)
        (fun _ _ => ⟨3, 4, 5⟩) (fun _ _ => (6, 7, 8))).latitude.get? 0 = some 1 :=
  ⟨rfl, rfl,
   (velocity_field_point_outside_all_polygons [⟨[⟨[⟨1, 2⟩]⟩]⟩] (fun _ => none)
      (fun _ _ => ⟨3, 4, 5⟩) (fun _ _ => (6, 7, 8)) 0 ⟨1, 2⟩ rfl rfl).2.2.1,
   (velocity_field_point_outside_all_polygons [⟨[⟨[⟨1, 2⟩]⟩]⟩] (fun _ => none)
      (fun _ _ => ⟨3, 4, 5⟩) (fun _ _ => (6, 7, 8)) 0 ⟨1, 2⟩ rfl rfl).2.2.2.2.2.2,
   (velocity_field_point_outside_all_polygons [⟨[⟨[⟨1, 2⟩]⟩]⟩] (fun _ => none)
      (fun _ _ => ⟨3, 4, 5⟩) (fun _ _ => (6, 7, 8)) 0 ⟨1, 2⟩ rfl rfl).1⟩

/-- A resolved topological boundary as observed by PlateSnapshot: the
reconstruction plate id of its resolved feature, and the area, arc length and
interior centroid of its resolved boundary geometry (all computed by the
external engine on the unit sphere). -/
structure ResolvedTopology where
  plate_id : Int
  area : ℚ
  boundary_length : ℚ
  centroid : PointOnSphere
  deriving DecidableEq

/-- pygplates Earth.mean_radius_in_kms (external constant, 6371.009 km). -/
def mean_radius_in_kms : ℚ := 6371009 / 1000

/-- The PlateSnapshot class (reconstruction_classes.py lines 73-94). -/
structure PlateSnapshot where
  reconstruction_time : ℚ
  anchor_plate : Int
  resolved_topologies : List ResolvedTopology
  plate_count : ℕ
  plate_ids : List Int
  plate_areas : List ℚ
  plate_perimeters : List ℚ
  plate_centroids : List PointOnSphere
  deriving DecidableEq

/-- `PlateSnapshot.__init__`: plate_count is the length of the resolved
topology list, and the per-plate lists are comprehensions over that list
(areas and perimeters scaled by the Earth mean radius in km). -/
def PlateSnapshot.init (resolved_topologies : List ResolvedTopology)
    (reconstruction_time : ℚ) (anchor_plate_id : Int) : PlateSnapshot :=
  { reconstruction_time := reconstruction_time
  , anchor_plate := anchor_plate_id
  , resolved_topologies := resolved_topologies
  , plate_count := resolved_topologies.length
  , plate_ids := resolved_topologies.map ResolvedTopology.plate_id
  , plate_areas := resolved_topologies.map (fun rt => rt.area * mean_radius_in_kms)
  , plate_perimeters := resolved_topologies.map (fun rt => rt.boundary_length * mean_radius_in_kms)
  , plate_centroids := resolved_topologies.map ResolvedTopology.centroid }

/-- C9: a PlateSnapshot built from a resolved topology list has plate_count
equal to its length, the four per-plate lists all have plate_count entries,
and entry i of each list is derived from the i-th resolved topology. -/
theorem plateSnapshot_per_plate_lists
    (resolved_topologies : List ResolvedTopology)
    (reconstruction_time : ℚ) (anchor_plate_id : Int) :
    (PlateSnapshot.init resolved_topologies reconstruction_time anchor_plate_id).plate_count
        = resolved_topologies.length
    ∧ (PlateSnapshot.init resolved_topologies reconstruction_time anchor_plate_id).plate_ids.length
        = (PlateSnapshot.init resolved_topologies reconstruction_time anchor_plate_id).plate_count
    ∧ (PlateSnapshot.init resolved_topologies reconstruction_time anchor_plate_id).plate_areas.length
        = (PlateSnapshot.init resolved_topologies reconstruction_time anchor_plate_id).plate_count
    ∧ (PlateSnapshot.init resolved_topologies reconstruction_time anchor_plate_id).plate_perimeters.length
        = (PlateSnapshot.init resolved_topologies reconstruction_time anchor_plate_id).plate_count
    ∧ (PlateSnapshot.init resolved_topologies reconstruction_time anchor_plate_id).plate_centroids.length
        = (PlateSnapshot.init resolved_topologies reconstruction_time anchor_plate_id).plate_count
    ∧ (∀ i : ℕ,
        (PlateSnapshot.init resolved_topologies reconstruction_time anchor_plate_id).plate_ids.get? i
          = (resolved_topologies.get? i).map ResolvedTopology.plate_id
        ∧ (PlateSnapshot.init resolved_topologies reconstruction_time anchor_plate_id).plate_areas.get? i
          = (resolved_topologies.get? i).map (fun rt => rt.area * mean_radius_in_kms)
        ∧ (PlateSnapshot.init resolved_topologies reconstruction_time anchor_plate_id).plate_perimeters.get? i
          = (resolved_topologies.get? i).map (fun rt => rt.boundary_length * mean_radius_in_kms)
        ∧ (PlateSnapshot.init resolved_topologies reconstruction_time anchor_plate_id).plate_centroids.get? i
          = (resolved_topologies.get? i).map ResolvedTopology.centroid) := by
  refine ⟨rfl, by simp [PlateSnapshot.init], by simp [PlateSnapshot.init],
    by simp [PlateSnapshot.init], by simp [PlateSnapshot.init], ?_⟩
  intro i
  exact ⟨List.get?_map _ _ _, List.get?_map _ _ _, List.get?_map _ _ _, List.get?_map _ _ _⟩

/-- A point feature built by age_coded_point_dataset.__init__: one point per
dataframe row, with valid time from the age field down to -999 (external
pygplates Feature, observed through its getters). -/
structure PointFeature where
  geometry : PointOnSphere
  valid_begin : ℚ
  valid_end : ℚ
  reconstruction_plate_id : Int
  deriving DecidableEq

/-- A value bound to an attribute of an age_coded_point_dataset instance. -/
inductive PyAttr where
  | table (df : DataFrame)
  | features (fs : List PointFeature)
  | model (m : ReconstructionModel)
  deriving DecidableEq

/-- The attribute dictionary of a Python object: most recent binding first. -/
def Attrs : Type := List (String × PyAttr)

/-- `self.<name> = v`. -/
def setattr (s : Attrs) (name : String) (v : PyAttr) : Attrs := (name, v) :: s

/-- Reading `self.<name>`: AttributeError when the name was never bound. -/
def getattr (s : Attrs) (name : String) : Except GSFML.PyError PyAttr :=
  match List.lookup name s with
  | some v => .ok v
  | none => .error (.attributeError name)

/-- `age_coded_point_dataset.__init__` after the feature-building loop over
the dataframe rows (reconstruction_classes.py lines 228-236): it binds the
attributes df and point_features, and nothing else. -/
def age_coded_init (df : DataFrame) (point_features : List PointFeature) : Attrs :=
  setattr (setattr [] "df" (.table df)) "point_features" (.features point_features)

/-- `age_coded_point_dataset.assign_reconstruction_model`
(reconstruction_classes.py lines 239-244): partitions the point features into
the static polygons of the model (external pygplates.partition_into_plates,
whose output enters as `partitioned_point_features`) and rebinds
point_features, then binds the attribute reconstruction_model — spelled with
both letters r-e-c-o-n-s-t-r-u-c-t-i-o-n. -/
def assign_reconstruction_model (s : Attrs) (reconstruction_model : ReconstructionModel)
    (partitioned_point_features : List PointFeature) : Attrs :=
  setattr (setattr s "point_features" (.features partitioned_point_features))
    "reconstruction_model" (.model reconstruction_model)

/-- `age_coded_point_dataset.reconstruct` (reconstruction_classes.py lines
247-255): evaluating the arguments of pygplates.reconstruct reads
self.point_features and then self.reconstuction_model (note the misspelling,
missing the second r); the engine call itself is external and enters as
`engine`. -/
def reconstruct (engine : PyAttr → PyAttr → List PointFeature) (s : Attrs)
    (reconstruction_time : ℚ) (anchor_plate_id : Int) :
    Except GSFML.PyError (List PointFeature) := do
  let pf ← getattr s "point_features"
  let rm ← getattr s "reconstuction_model"
  pure (engine pf rm)

/-- The operations that mutate the attribute dictionary of an
age_coded_point_dataset after construction: only assign_reconstruction_model
assigns attributes (reconstruct, plot_reconstructed and
reconstruct_to_time_of_appearance only read them). -/
inductive AgeOp where
  | assign (reconstruction_model : ReconstructionModel)
           (partitioned_point_features : List PointFeature)

def applyOp (s : Attrs) : AgeOp → Attrs
  | .assign rm pfs => assign_reconstruction_model s rm pfs

def applyOps (s : Attrs) : List AgeOp → Attrs
  | [] => s
  | op :: rest => applyOps (applyOp s op) rest

theorem applyOps_misspelled_attr_none (ops : List AgeOp) (s : Attrs)
    (h : List.lookup "reconstuction_model" s = none) :
    List.lookup "reconstuction_model" (applyOps s ops) = none := by
  induction ops generalizing s with
  | nil => exact h
  | cons op rest ih =>
    cases op with
    | assign rm pfs =>
      apply ih
      simp only [applyOp, assign_reconstruction_model, setattr, List.lookup]
      exact h

theorem applyOps_point_features_isSome (ops : List AgeOp) (s : Attrs)
    (h : (List.lookup "point_features" s).isSome = true) :
    (List.lookup "point_features" (applyOps s ops)).isSome = true := by
  induction ops generalizing s with
  | nil => exact h
  | cons op rest ih =>
    cases op with
    | assign rm pfs =>
      apply ih
      simp [applyOp, assign_reconstruction_model, setattr, List.lookup]

/-- C10: from a freshly constructed age_coded_point_dataset, after any
sequence of assign_reconstruction_model calls, reconstruct raises
AttributeError on the misspelled attribute reconstuction_model, which no
operation of the class ever binds. -/
theorem age_coded_reconstruct_always_attribute_error
    (df : DataFrame) (point_features : List PointFeature) (ops : List AgeOp)
    (engine : PyAttr → PyAttr → List PointFeature)
    (reconstruction_time : ℚ) (anchor_plate_id : Int) :
    reconstruct engine (applyOps (age_coded_init df point_features) ops)
        reconstruction_time anchor_plate_id =
      .error (.attributeError "reconstuction_model") := by
  have hpf : (List.lookup "point_features"
      (applyOps (age_coded_init df point_features) ops)).isSome = true := by
    apply applyOps_point_features_isSome
    simp [age_coded_init, setattr, List.lookup]
  have hrm : List.lookup "reconstuction_model"
      (applyOps (age_coded_init df point_features) ops) = none := by
    apply applyOps_misspelled_attr_none
    simp [age_coded_init, setattr, List.lookup]
  rcases Option.isSome_iff_exists.mp hpf with ⟨v, hv⟩
  simp [reconstruct, getattr, hv, hrm, Bind.bind, Except.bind]

end ReconstructionClasses
